import Mathlib

/-!
Verification of the PC recommendation engine
(`app/api/services/recommendation_engine.py` and the data model in
`app/api/models/user_profile.py`).

The Python code is shallowly embedded: floats become `ℚ`, Mongo documents
become Lean structures whose optional dictionary fields are association
lists (`List (String × ℚ)`), Mongo aggregation pipelines become
filter/sort/take over a `List Config` database, and the fallible
`generate_recommendations` coroutine becomes a pure function into
`Except`.  Exceptions cannot arise for well-typed inputs, so `try` bodies
are embedded directly; the constant values of the `except` branches are
kept as named definitions where a claim talks about them.
-/

namespace RecEngine

abbrev Q := ℚ

/-- Budget from `app/api/models/user_profile.py`; pydantic requires
`min > 0` and `max > 0` but the `min ≤ max` validator is commented out,
so budgets with `min > max` are representable.  `currency` is carried
along unused by the engine. -/
structure Budget where
  min : Q
  max : Q
  currency : String := "USD"
deriving DecidableEq, Repr

/-- `UserProfile` from `app/api/models/user_profile.py`.
`purpose` is pydantic-constrained to one of five strings and
`performance_level` to one of four, but the engine code itself treats
both as raw strings with dictionary defaults, so we model them as
`String`.  `preferred_brands`/`must_have_features` default to `[]`;
`None` and `[]` are both falsy in the source,`[]` represents both. -/
structure UserProfile where
  purpose : String
  budget : Budget
  performance_level : String
  preferred_brands : List String := []
  must_have_features : List String := []
  session_id : String := ""
  user_id : Option String := none
  id : String := ""
deriving DecidableEq, Repr

/-- A `pc_configurations` document as the engine reads it.  The two
dictionary fields are `Option`al so that the pipeline conditions
`{"$exists": True}` are meaningful; inside, the purpose keys of
`suitability_scores` and the `*_performance` keys of
`performance_profile` may individually be absent, as `dict.get`
defaults in the source allow.  `components` keeps just the
`component_id` strings of the embedded component references.
`fallback_type` models the in-memory `_fallback_type` tag
(`none` for documents fresh from the database). -/
structure Config where
  id : String
  name : String
  total_price : Q
  suitability_scores : Option (List (String × Q))
  performance_profile : Option (List (String × Q))
  components : List String := []
  fallback_type : Option String := none
deriving DecidableEq, Repr

/-- A `components` collection document (the fields the engine reads). -/
structure ComponentDoc where
  id : String
  ctype : String
  name : String
  brand : String
  price : Q
deriving DecidableEq, Repr

/-- `dict.get(key, default)` on an association list. -/
def lookupD (l : List (String × Q)) (k : String) (d : Q) : Q :=
  (l.lookup k).getD d

/-- Python `int(x)` on a float/rational: truncation toward zero. -/
def pyInt (x : Q) : Int :=
  if 0 ≤ x then ⌊x⌋ else ⌈x⌉

/-- Python `round(x, 1)` (round-half-to-even), modelled exactly on ℚ. -/
def roundHalfEven (x : Q) : Int :=
  let f : Int := ⌊x⌋
  if x - f < 1/2 then f
  else if (1:Q)/2 < x - f then f + 1
  else if Even f then f else f + 1

def round1 (x : Q) : Q := (roundHalfEven (x * 10) : Q) / 10

/-- The four scoring-factor weights. -/
structure Weights where
  purpose : Q
  budget : Q
  performance : Q
  brand : Q
deriving DecidableEq, Repr

def Weights.sum (w : Weights) : Q :=
  w.purpose + w.budget + w.performance + w.brand

/-- Base weights of `_calculate_dynamic_weights` (0.4/0.3/0.2/0.1). -/
def base_weights : Weights := ⟨4/10, 3/10, 2/10, 1/10⟩

/-- `performance_weights.get(performance_level, 0.2)` in
`_calculate_dynamic_weights`. -/
def performance_weight_table (level : String) : Q :=
  if level = "basic" then 15/100
  else if level = "standard" then 2/10
  else if level = "high" then 25/100
  else if level = "professional" then 3/10
  else 2/10

/-- The per-purpose full four-tuples of `_calculate_dynamic_weights`;
`none` when the purpose is not a key of the table. -/
def purpose_weight_table (purpose : String) : Option Weights :=
  if purpose = "gaming" then some ⟨45/100, 2/10, 3/10, 5/100⟩
  else if purpose = "creative" then some ⟨4/10, 2/10, 3/10, 1/10⟩
  else if purpose = "programming" then some ⟨35/100, 25/100, 3/10, 1/10⟩
  else if purpose = "office" then some ⟨3/10, 4/10, 2/10, 1/10⟩
  else if purpose = "general" then some ⟨35/100, 3/10, 25/100, 1/10⟩
  else none

/-- `_calculate_dynamic_weights`.  The source takes the whole profile and
guards `not hasattr(user_profile, "budget") or not user_profile.budget`;
the budget argument is therefore an `Option` (`none` = missing/falsy),
and the engine passes `some profile.budget`. -/
def calculate_dynamic_weights (purpose performance_level : String)
    (budget : Option Budget) : Weights :=
  match budget with
  | none => base_weights
  | some b =>
    let budget_range := b.max - b.min
    let w :=
      if budget_range < 500 then ⟨3/10, 4/10, 2/10, 1/10⟩
      else if budget_range > 2000 then ⟨4/10, 2/10, 3/10, 1/10⟩
      else base_weights
    let w : Weights := { w with performance := performance_weight_table performance_level }
    let w := (purpose_weight_table purpose).getD w
    let total := w.sum
    if 0 < total then ⟨w.purpose/total, w.budget/total, w.performance/total, w.brand/total⟩
    else base_weights

/-- `purpose_mapping.get(purpose, "general")` of the purpose scorers. -/
def purpose_key_of (purpose : String) : String :=
  if purpose = "gaming" ∨ purpose = "office" ∨ purpose = "creative" ∨
      purpose = "programming" ∨ purpose = "general" then purpose else "general"

/-- `_calculate_purpose_score` (normal mode). -/
def calculate_purpose_score (purpose : String)
    (suitability_scores : List (String × Q)) : Q :=
  let base_score := lookupD suitability_scores (purpose_key_of purpose) 50
  let weight : Q :=
    if purpose = "gaming" then 12/10
    else if purpose = "creative" then 115/100
    else if purpose = "programming" then 1
    else if purpose = "office" then 9/10
    else if purpose = "general" then 1
    else 1
  min 100 (base_score * weight)

/-- `_calculate_budget_fit` (normal mode).  The `isinstance` test is
vacuous for ℚ; the `budget_range <= 0` and `max_distance <= 0` branches
of the source are kept although unreachable once the bound checks above
them have passed. -/
def calculate_budget_fit (price : Q) (budget : Budget) : Q :=
  if price < 0 then 0
  else
    let budget_min := budget.min
    let budget_max := budget.max
    if budget_min ≥ budget_max ∨ budget_min < 0 ∨ budget_max < 0 then 0
    else
      let budget_range := budget_max - budget_min
      if budget_range ≤ 0 then (if price = budget_min then 100 else 50)
      else
        let tightness_factor := max (1/2) (min 2 (1000 / budget_range))
        let center := (budget_min + budget_max) / 2
        let distance_from_center := |price - center|
        let max_distance := budget_range / 2
        if max_distance ≤ 0 then 50
        else
          let fit_score := max 0 (100 * (1 - distance_from_center / max_distance) * tightness_factor)
          if |price - budget_min| < budget_range * (1/10) then min 100 (fit_score + 15)
          else if |price - budget_max| < budget_range * (1/10) then min 100 (fit_score + 10)
          else fit_score

/-- The component-weight tables of `_calculate_performance_score`
(default: the `general` table). -/
def purpose_component_weights (purpose : String) : List (String × Q) :=
  if purpose = "gaming" then [("gpu", 5/10), ("cpu", 3/10), ("ram", 15/100), ("storage", 5/100)]
  else if purpose = "creative" then [("gpu", 4/10), ("cpu", 35/100), ("ram", 2/10), ("storage", 5/100)]
  else if purpose = "programming" then [("cpu", 4/10), ("ram", 3/10), ("gpu", 2/10), ("storage", 1/10)]
  else if purpose = "office" then [("cpu", 3/10), ("ram", 3/10), ("gpu", 2/10), ("storage", 2/10)]
  else [("cpu", 3/10), ("gpu", 3/10), ("ram", 2/10), ("storage", 2/10)]

/-- `level_mapping` of `_calculate_performance_score` (default 50). -/
def level_mapping (required_level : String) : Q :=
  if required_level = "basic" then 30
  else if required_level = "standard" then 50
  else if required_level = "high" then 70
  else if required_level = "professional" then 85
  else 50

/-- `_calculate_performance_score` (normal mode): purpose-weighted
component figure bucketed against the level requirement. -/
def calculate_performance_score (required_level : String)
    (performance_profile : List (String × Q)) (purpose : String) : Q :=
  let required_score := level_mapping required_level
  let weighted_performance :=
    (purpose_component_weights purpose).foldl
      (fun acc cw => acc + lookupD performance_profile (cw.1 ++ "_performance") 50 * cw.2) 0
  if weighted_performance ≥ required_score then 100
  else if weighted_performance ≥ required_score * (8/10) then 75
  else if weighted_performance ≥ required_score * (6/10) then 50
  else 25

/-- `_calculate_brand_preference_bonus`: the fraction (as a 0–100
percentage) of the resolved components of the configuration whose brand is
one of the preferred brands, case-insensitively. -/
def calculate_brand_preference_bonus (components_db : List ComponentDoc)
    (component_ids : List String) (preferred_brands : List String) : Q :=
  if preferred_brands = [] then 0
  else if component_ids = [] then 0
  else
    let component_docs := components_db.filter (fun d => d.id ∈ component_ids)
    let total_components := component_docs.length
    let matching_brands :=
      (component_docs.filter
        (fun d => d.brand.toUpper ∈ preferred_brands.map (·.toUpper))).length
    if total_components = 0 then 0
    else ((matching_brands : Q) / (total_components : Q)) * 100

/-- `_calculate_purpose_score_safe`: floor 60, cap 100. -/
def calculate_purpose_score_safe (purpose : String)
    (suitability_scores : List (String × Q)) : Q :=
  let base_score := lookupD suitability_scores (purpose_key_of purpose) 50
  max 60 (min 100 base_score)

/-- Value of the `except` branch of `_calculate_purpose_score_safe`. -/
def purpose_score_safe_on_error : Q := 70

/-- `_calculate_budget_fit_safe`. -/
def calculate_budget_fit_safe (price : Q) (budget : Budget) : Q :=
  let budget_min := budget.min
  let budget_max := budget.max
  if price < budget_min then 70
  else if price > budget_max then 60
  else
    let budget_range := budget_max - budget_min
    if budget_range = 0 then 85
    else
      let center := (budget_min + budget_max) / 2
      let distance_from_center := |price - center|
      let max_distance := budget_range / 2
      max 70 (100 * (1 - distance_from_center / max_distance))

/-- Value of the `except` branch of `_calculate_budget_fit_safe`. -/
def budget_fit_safe_on_error : Q := 75

/-- `level_mapping` of `_calculate_performance_score_safe` (default 50). -/
def level_mapping_safe (required_level : String) : Q :=
  if required_level = "basic" then 40
  else if required_level = "standard" then 50
  else if required_level = "high" then 60
  else if required_level = "professional" then 70
  else 50

/-- `_calculate_performance_score_safe`. -/
def calculate_performance_score_safe (required_level : String)
    (performance_profile : List (String × Q)) : Q :=
  let required_score := level_mapping_safe required_level
  let overall_performance := lookupD performance_profile "overall_performance" 50
  if overall_performance ≥ required_score then max 85 (min 100 overall_performance)
  else if overall_performance ≥ required_score * (7/10) then 75
  else if overall_performance ≥ required_score * (1/2) then 70
  else 65

/-- Value of the `except` branch of `_calculate_performance_score_safe`. -/
def performance_score_safe_on_error : Q := 70

/-- `_check_budget_constraints`: `budget.min <= price <= budget.max`. -/
def check_budget_constraints (price : Q) (budget : Budget) : Prop :=
  budget.min ≤ price ∧ price ≤ budget.max

instance (price : Q) (budget : Budget) :
    Decidable (check_budget_constraints price budget) :=
  inferInstanceAs (Decidable (_ ∧ _))

/-- A `{type, impact}` trade-off record (the templated description
string is elided: no claim inspects it). -/
structure TradeOffRec where
  ttype : String
  impact : String
deriving DecidableEq, Repr

/-- `level_requirements` of `_identify_trade_offs` (default 50). -/
def level_requirements (required_level : String) : Q :=
  if required_level = "basic" then 30
  else if required_level = "standard" then 50
  else if required_level = "high" then 70
  else if required_level = "professional" then 85
  else 50

/-- `_identify_trade_offs`: advisory annotations, never filters. -/
def identify_trade_offs (price : Q) (budget : Budget)
    (performance_profile : List (String × Q))
    (required_level purpose : String) : List TradeOffRec :=
  let budget_min := budget.min
  let budget_max := budget.max
  let budget_range := budget_max - budget_min
  let budget_center := (budget_min + budget_max) / 2
  let threshold_factor := max (1/10) (min (3/10) (500 / max budget_range 1))
  let budget_offs : List TradeOffRec :=
    if price > budget_center * (1 + threshold_factor) then [⟨"budget", "negative"⟩]
    else if price < budget_min * (11/10) then [⟨"performance", "neutral"⟩]
    else []
  let overall_performance := lookupD performance_profile "overall_performance" 50
  let required_min := level_requirements required_level
  let purpose_multiplier : Q :=
    if purpose = "gaming" then 1 else if purpose = "creative" then 95/100
    else if purpose = "programming" then 9/10 else if purpose = "office" then 85/100
    else if purpose = "general" then 9/10 else 9/10
  let perf_offs : List TradeOffRec :=
    if overall_performance < required_min * purpose_multiplier then
      [⟨"performance", "negative"⟩] else []
  let cpu_performance := lookupD performance_profile "cpu_performance" 50
  let gpu_performance := lookupD performance_profile "gpu_performance" 50
  let ram_performance := lookupD performance_profile "ram_performance" 50
  let cpu_factor : Q :=
    if purpose = "gaming" then 8/10 else if purpose = "creative" then 85/100
    else if purpose = "programming" then 9/10 else if purpose = "office" then 7/10
    else if purpose = "general" then 75/100 else 75/100
  let cpu_offs : List TradeOffRec :=
    if cpu_performance < required_min * cpu_factor then [⟨"cpu", "negative"⟩] else []
  let gpu_factor : Q :=
    if purpose = "gaming" then 9/10 else if purpose = "creative" then 9/10
    else if purpose = "programming" then 6/10 else if purpose = "office" then 5/10
    else if purpose = "general" then 7/10 else 7/10
  let gpu_offs : List TradeOffRec :=
    if gpu_performance < required_min * gpu_factor then [⟨"gpu", "negative"⟩] else []
  let ram_factor : Q :=
    if purpose = "gaming" then 7/10 else if purpose = "creative" then 8/10
    else if purpose = "programming" then 8/10 else if purpose = "office" then 6/10
    else if purpose = "general" then 7/10 else 7/10
  let ram_offs : List TradeOffRec :=
    if ram_performance < required_min * ram_factor then [⟨"memory", "negative"⟩] else []
  budget_offs ++ perf_offs ++ cpu_offs ++ gpu_offs ++ ram_offs

/-- A component summary row of `_get_component_summaries`. -/
structure ComponentSummary where
  id : String
  ctype : String
  name : String
  brand : String
  price : Q
deriving DecidableEq, Repr

/-- `_get_component_summaries` (the ObjectId round-trip and the summary
cache are elided: ids are matched as strings and the cache only
short-circuits an identical recomputation). -/
def get_component_summaries (components_db : List ComponentDoc)
    (component_ids : List String) : List ComponentSummary :=
  component_ids.filterMap (fun cid =>
    match components_db.find? (fun d => d.id = cid) with
    | some d => some ⟨cid, d.ctype, d.name, d.brand, d.price⟩
    | none => none)

/-- A `{factor, weight}` match reason (the explanation sentence is
elided: no claim inspects it). -/
structure MatchReason where
  factor : String
  weight : Q
deriving DecidableEq, Repr

/-- The extra zero-weight `fallback_note` reason appended by
`_score_configuration` for the four recognised fallback tags. -/
def fallback_note_reasons (fallback_type : Option String) : List MatchReason :=
  match fallback_type with
  | some t =>
    if t = "preferred_brands" ∨ t = "relaxed_performance" ∨
        t = "expanded_budget" ∨ t = "no_constraints" then [⟨"fallback_note", 0⟩]
    else []
  | none => []

/-- A scored recommendation as returned by `_score_configuration`. -/
structure ScoredCandidate where
  configuration_id : String
  name : String
  total_price : Q
  confidence_score : Q
  match_reasons : List MatchReason
  trade_offs : List TradeOffRec
  components : List ComponentSummary
  fallback_type : Option String
deriving DecidableEq, Repr, Inhabited

/-- `_score_configuration`: `none` models the `return None` paths
(invalid price, budget check failed); scoring exceptions (the other
`None` path) cannot arise in the embedding. -/
def score_configuration (components_db : List ComponentDoc)
    (user_profile : UserProfile) (safe_mode : Bool)
    (config : Config) : Option ScoredCandidate :=
  let config_price := config.total_price
  if config_price ≤ 0 then none
  else
    let suitability_scores := config.suitability_scores.getD []
    let performance_profile := config.performance_profile.getD []
    if ¬ check_budget_constraints config_price user_profile.budget then none
    else
      let scored : Q × List MatchReason :=
        if safe_mode then
          let weights : Weights := ⟨4/10, 3/10, 2/10, 1/10⟩
          let purpose_score := calculate_purpose_score_safe user_profile.purpose suitability_scores
          let c := purpose_score * weights.purpose
          let r : List MatchReason := [⟨"purpose_alignment", weights.purpose⟩]
          let budget_fit := calculate_budget_fit_safe config_price user_profile.budget
          let c := c + budget_fit * weights.budget
          let r := r ++ [⟨"budget_fit", weights.budget⟩]
          let performance_score :=
            calculate_performance_score_safe user_profile.performance_level performance_profile
          let c := c + performance_score * weights.performance
          let r := r ++ [⟨"performance_match", weights.performance⟩]
          if user_profile.preferred_brands ≠ [] then
            let brand_bonus := calculate_brand_preference_bonus components_db
              config.components user_profile.preferred_brands
            if 0 < brand_bonus then
              (c + brand_bonus * weights.brand, r ++ [⟨"brand_preference", weights.brand⟩])
            else (c, r)
          else (c, r)
        else
          let weights := calculate_dynamic_weights user_profile.purpose
            user_profile.performance_level (some user_profile.budget)
          let purpose_score := calculate_purpose_score user_profile.purpose suitability_scores
          let scored₀ : Q × List MatchReason :=
            if 0 < purpose_score then
              (purpose_score * weights.purpose, [⟨"purpose_alignment", weights.purpose⟩])
            else (0, [])
          let budget_fit := calculate_budget_fit config_price user_profile.budget
          let c := scored₀.1 + budget_fit * weights.budget
          let r := scored₀.2 ++ [⟨"budget_fit", weights.budget⟩]
          let performance_score := calculate_performance_score
            user_profile.performance_level performance_profile user_profile.purpose
          let c := c + performance_score * weights.performance
          let r := r ++ [⟨"performance_match", weights.performance⟩]
          if user_profile.preferred_brands ≠ [] then
            let brand_bonus := calculate_brand_preference_bonus components_db
              config.components user_profile.preferred_brands
            if 0 < brand_bonus then
              let brand_weight := min (brand_bonus * (1/10)) weights.brand
              (c + brand_bonus * brand_weight, r ++ [⟨"brand_preference", brand_weight⟩])
            else (c, r)
          else (c, r)
      let trade_offs := identify_trade_offs config_price user_profile.budget
        performance_profile user_profile.performance_level user_profile.purpose
      let confidence_score := max 0 (min 100 scored.1)
      let component_summaries := get_component_summaries components_db config.components
      let fallback_type := config.fallback_type
      let match_reasons := scored.2 ++ fallback_note_reasons fallback_type
      some ⟨config.id, config.name, config_price, round1 confidence_score,
        match_reasons, trade_offs, component_summaries, fallback_type⟩

/-- The primary-query suitability thresholds of
`generate_recommendations` (safe and normal mode tables). -/
def purpose_threshold (safe_mode : Bool) (purpose : String) : Q :=
  if safe_mode then
    if purpose = "gaming" then 30 else if purpose = "creative" then 25
    else if purpose = "programming" then 20 else if purpose = "office" then 15
    else if purpose = "general" then 10 else 10
  else
    if purpose = "gaming" then 60 else if purpose = "creative" then 55
    else if purpose = "programming" then 50 else if purpose = "office" then 45
    else if purpose = "general" then 40 else 40

/-- The primary-query performance thresholds of
`generate_recommendations` (safe and normal mode tables). -/
def performance_threshold (safe_mode : Bool) (level : String) : Q :=
  if safe_mode then
    if level = "basic" then 15 else if level = "standard" then 20
    else if level = "high" then 25 else if level = "professional" then 30
    else 15
  else
    if level = "basic" then 30 else if level = "standard" then 45
    else if level = "high" then 60 else if level = "professional" then 75
    else 40

/-- The `$match` stage shared by all pipelines: both dictionary fields
must exist, the price must lie in the given range, and — unless the
threshold pair is dropped (`no_constraints`) — the purpose suitability
key and `overall_performance` must exist and meet their minima
(a missing field never satisfies Mongo `$gte`). -/
def match_cond (bmin bmax : Q) (thresh : Option (Q × Q)) (purpose : String)
    (c : Config) : Bool :=
  c.suitability_scores.isSome && c.performance_profile.isSome &&
  decide (bmin ≤ c.total_price) && decide (c.total_price ≤ bmax) &&
  (match thresh with
   | none => true
   | some (min_suitability, min_performance) =>
     (match (c.suitability_scores.getD []).lookup purpose with
      | some v => decide (min_suitability ≤ v)
      | none => false) &&
     (match (c.performance_profile.getD []).lookup "overall_performance" with
      | some v => decide (min_performance ≤ v)
      | none => false))

/-- The `$addFields` relevance score
`0.6·suitability[purpose] + 0.4·overall_performance`; `none` models the
BSON null produced when either field is missing. -/
def relevance (purpose : String) (c : Config) : Option Q :=
  match (c.suitability_scores.getD []).lookup purpose,
        (c.performance_profile.getD []).lookup "overall_performance" with
  | some s, some o => some (s * (6/10) + o * (4/10))
  | _, _ => none

/-- The `$sort {relevance_score: -1, total_price: 1}` comparator:
descending relevance (BSON sorts null after every number when
descending), ties by ascending price. -/
def config_le (purpose : String) (a b : Config) : Bool :=
  match relevance purpose a, relevance purpose b with
  | some ra, some rb => if ra = rb then decide (a.total_price ≤ b.total_price) else decide (rb < ra)
  | some _, none => true
  | none, some _ => false
  | none, none => decide (a.total_price ≤ b.total_price)

/-- One aggregation run: `$match`, `$addFields`+`$sort`, `$limit`.
The sort is a stable sort under `config_le` (insertion sort, which the
kernel can evaluate). -/
def agg_query (db : List Config) (bmin bmax : Q) (thresh : Option (Q × Q))
    (purpose : String) (lim : Nat) : List Config :=
  ((db.filter (match_cond bmin bmax thresh purpose)).insertionSort
    (fun a b => config_le purpose a b = true)).take lim

/-- Deduplication by `_id` keeping the first occurrence, as in the
broadened-query merge of `generate_recommendations`. -/
def dedup_by_id : List Config → List String → List Config
  | [], _ => []
  | c :: rest, seen =>
    if c.id ∈ seen then dedup_by_id rest seen
    else c :: dedup_by_id rest (c.id :: seen)

/-- The primary query of `generate_recommendations`
(limit `max_recommendations + 20`). -/
def primary_query (db : List Config) (p : UserProfile)
    (max_recommendations : Nat) (safe_mode : Bool) : List Config :=
  agg_query db p.budget.min p.budget.max
    (some (purpose_threshold safe_mode p.purpose,
           performance_threshold safe_mode p.performance_level))
    p.purpose (max_recommendations + 20)

/-- The threshold-broadened query (−20 with floor 20 on both thresholds,
limit `max_recommendations + 15`). -/
def broadened_query (db : List Config) (p : UserProfile)
    (max_recommendations : Nat) (safe_mode : Bool) : List Config :=
  agg_query db p.budget.min p.budget.max
    (some (max 20 (purpose_threshold safe_mode p.purpose - 20),
           max 20 (performance_threshold safe_mode p.performance_level - 20)))
    p.purpose (max_recommendations + 15)

/-- Primary retrieval incl. the broadened merge: if the primary query
returns fewer than `max_recommendations` configurations the broadened
results are appended, deduplicated by id (primary order first) and cut
to `max_recommendations + 20`.  The `except` branch (price-only simple
query after an aggregation failure) cannot arise in the embedding. -/
def retrieve (db : List Config) (p : UserProfile)
    (max_recommendations : Nat) (safe_mode : Bool) : List Config :=
  let configs := primary_query db p max_recommendations safe_mode
  if configs.length < max_recommendations then
    (dedup_by_id (configs ++ broadened_query db p max_recommendations safe_mode) []).take
      (max_recommendations + 20)
  else configs

/-- The `_fallback_type` tag expression of `_try_fallback_query`
(verbatim conditional chain; note that its first branch tests the
`preferred_brands` parameter, not which relaxation flag is set). -/
def fallback_tag (preferred_brands : Option (List String))
    (profile_brands : List String)
    (relaxed_performance expanded_budget no_constraints : Bool) : String :=
  if preferred_brands = none ∧ profile_brands ≠ [] then "preferred_brands"
  else if relaxed_performance then "relaxed_performance"
  else if expanded_budget then "expanded_budget"
  else if no_constraints then "no_constraints"
  else "original"

/-- `_try_fallback_query`.  It always starts from the normal-mode
threshold tables, relaxes them by −20 (floor 20) for
`relaxed_performance`, widens the price range by
`int(0.15·(max−min))` for `expanded_budget` (lower bound floored at 0),
drops the threshold conditions entirely for `no_constraints`, and tags
every returned configuration with `fallback_tag`.  The `brands_to_use`
variable of the source is computed but never used in the query and is
omitted. -/
def try_fallback_query (db : List Config) (p : UserProfile)
    (max_recommendations : Nat) (preferred_brands : Option (List String))
    (relaxed_performance expanded_budget no_constraints : Bool) : List Config :=
  let min_suitability := purpose_threshold false p.purpose
  let min_performance := performance_threshold false p.performance_level
  let min_suitability := if relaxed_performance then max 20 (min_suitability - 20) else min_suitability
  let min_performance := if relaxed_performance then max 20 (min_performance - 20) else min_performance
  let bounds : Q × Q :=
    if expanded_budget then
      let budget_range := p.budget.max - p.budget.min
      let expansion : Q := (pyInt (budget_range * (15/100)) : Q)
      (max 0 (p.budget.min - expansion), p.budget.max + expansion)
    else (p.budget.min, p.budget.max)
  let thresh : Option (Q × Q) :=
    if no_constraints then none else some (min_suitability, min_performance)
  let configs := agg_query db bounds.1 bounds.2 thresh p.purpose (max_recommendations + 10)
  if configs ≠ [] then
    configs.map (fun c =>
      { c with fallback_type := some (fallback_tag preferred_brands p.preferred_brands
          relaxed_performance expanded_budget no_constraints) })
  else configs

/-- The four progressive fallback stages of `generate_recommendations`. -/
inductive FallbackStage where
  | relaxPreferredBrands
  | relaxPerformance
  | expandBudget
  | removeAllConstraints
deriving DecidableEq, Repr

/-- Position of a stage in the attempted order. -/
def FallbackStage.idx : FallbackStage → Nat
  | .relaxPreferredBrands => 0
  | .relaxPerformance => 1
  | .expandBudget => 2
  | .removeAllConstraints => 3

/-- The `_try_fallback_query` call made for each stage (every call site
leaves the `preferred_brands` parameter at `None`). -/
def stage_result (db : List Config) (p : UserProfile)
    (max_recommendations : Nat) : FallbackStage → List Config
  | .relaxPreferredBrands => try_fallback_query db p max_recommendations none false false false
  | .relaxPerformance => try_fallback_query db p max_recommendations none true false false
  | .expandBudget => try_fallback_query db p max_recommendations none false true false
  | .removeAllConstraints => try_fallback_query db p max_recommendations none false false true

/-- The progressive-fallback driver: each stage is attempted only while
`configs` is still empty; the brand stage additionally only when the
profile names preferred brands. -/
def retrieve_with_fallback (db : List Config) (p : UserProfile)
    (max_recommendations : Nat) (safe_mode : Bool) : List Config :=
  let configs := retrieve db p max_recommendations safe_mode
  if configs ≠ [] then configs
  else
    let f1 := if p.preferred_brands ≠ [] then
      stage_result db p max_recommendations .relaxPreferredBrands else []
    if f1 ≠ [] then f1
    else
      let f2 := stage_result db p max_recommendations .relaxPerformance
      if f2 ≠ [] then f2
      else
        let f3 := stage_result db p max_recommendations .expandBudget
        if f3 ≠ [] then f3
        else stage_result db p max_recommendations .removeAllConstraints

/-- The stages attempted by `retrieve_with_fallback`, in order. -/
def fallback_trace (db : List Config) (p : UserProfile)
    (max_recommendations : Nat) (safe_mode : Bool) : List FallbackStage :=
  if retrieve db p max_recommendations safe_mode ≠ [] then []
  else
    let t1 : List FallbackStage :=
      if p.preferred_brands ≠ [] then [.relaxPreferredBrands] else []
    let r1 := if p.preferred_brands ≠ [] then
      stage_result db p max_recommendations .relaxPreferredBrands else []
    if r1 ≠ [] then t1
    else
      let t2 := t1 ++ [.relaxPerformance]
      if stage_result db p max_recommendations .relaxPerformance ≠ [] then t2
      else
        let t3 := t2 ++ [.expandBudget]
        if stage_result db p max_recommendations .expandBudget ≠ [] then t3
        else t3 ++ [.removeAllConstraints]

/-- The two `raise ValueError` sites of `generate_recommendations`. -/
inductive RecError where
  /-- "No PC configurations available in the system" (all stages empty). -/
  | noConfigurationsAvailable
  /-- "No PC configurations meet the minimum requirements after detailed
  scoring" (candidates retrieved, all dropped by scoring). -/
  | noValidAfterScoring
deriving DecidableEq, Repr

/-- Descending stable comparator for the final
`sort(key=confidence_score, reverse=True)`. -/
def scored_le (a b : ScoredCandidate) : Bool :=
  decide (b.confidence_score ≤ a.confidence_score)

/-- All retrieved configurations that survive scoring (before sorting). -/
def scored_pool (db : List Config) (components_db : List ComponentDoc)
    (p : UserProfile) (max_recommendations : Nat) (safe_mode : Bool) :
    List ScoredCandidate :=
  (retrieve_with_fallback db p max_recommendations safe_mode).filterMap
    (score_configuration components_db p safe_mode)

/-- `generate_recommendations` on a cache miss (the function models the
compute path; a cache hit returns the previously computed value with
`cache_hit = true` and is not modelled — claim C9 treats the key).
Candidate scoring is deterministic, so the parallel `asyncio.gather`
fan-out with skip-on-exception equals the sequential `filterMap`. -/
def generate_recommendations (db : List Config)
    (components_db : List ComponentDoc) (p : UserProfile)
    (max_recommendations : Nat) (safe_mode : Bool) :
    Except RecError (List ScoredCandidate × Bool) :=
  let configs := retrieve_with_fallback db p max_recommendations safe_mode
  if configs = [] then .error .noConfigurationsAvailable
  else
    let scored_configs :=
      (configs.filterMap (score_configuration components_db p safe_mode)).insertionSort
        (fun a b => scored_le a b = true)
    let top_recommendations := scored_configs.take max_recommendations
    if top_recommendations = [] then
      if scored_configs ≠ [] then .ok (scored_configs.take max_recommendations, false)
      else .error .noValidAfterScoring
    else .ok (top_recommendations, false)

/-- The ranked list of a successful run (`[]` for a failed one). -/
def result_list (r : Except RecError (List ScoredCandidate × Bool)) :
    List ScoredCandidate :=
  match r with
  | .ok (l, _) => l
  | .error _ => []

/-- Python `sorted` on a list of strings (a stable ascending sort under
the lexicographic order). -/
def py_sorted (l : List String) : List String :=
  l.insertionSort (· ≤ ·)

/-- The `normalized_profile` dictionary that `generate_recommendations`
hashes into its cache key.  Session and identity fields
(`session_id`, `user_id`, `id`) and the budget currency are not part of
it. -/
structure NormalizedProfile where
  purpose : String
  budget_min : Q
  budget_max : Q
  performance_level : String
  max_recommendations : Nat
  safe_mode : Bool
  preferred_brands : List String
  must_have_features : List String
deriving DecidableEq, Repr

/-- Building the normalized profile: `purpose or "general"` and the
budget guards follow the source (`budget` is pydantic-required, so its
falsy branch is unreachable and `min`/`max` are read directly); brand
and feature lists are sorted.  The cache key is
`md5("recommendations|" + json.dumps(this, sort_keys=True))` — a
deterministic injective-enough function of this record, so key equality
is modelled as equality of this record. -/
def normalize_profile (p : UserProfile) (max_recommendations : Nat)
    (safe_mode : Bool) : NormalizedProfile where
  purpose := if p.purpose = "" then "general" else p.purpose
  budget_min := p.budget.min
  budget_max := p.budget.max
  performance_level := if p.performance_level = "" then "standard" else p.performance_level
  max_recommendations := max_recommendations
  safe_mode := safe_mode
  preferred_brands := py_sorted p.preferred_brands
  must_have_features := py_sorted p.must_have_features

deriving instance DecidableEq for Except

/-!  Theorems.  Concrete evaluations use `decide`; the Batteries
rational-arithmetic primitives are `@[irreducible]` by default and are
made reducible again so that terms evaluate. -/

unseal Rat.add Rat.mul Rat.inv Rat.sub

/-- The budget-fit formula as §4.5 of the spec words it, with the
clamping the code actually performs: a centering score
`100·(1 − |price−center|/(range/2))` scaled by the tightness factor
`clamp(1000/range, 0.5, 2.0)` and clamped below at 0; a +15 bonus
(then clamped at 100) when the price is within 10% of the range of the
minimum, +10 (then clamped at 100) within 10% of the maximum; 0 for
invalid bounds or a negative price.  There is no final clamp to 100 in
the bonus-free case. -/
def budget_fit_spec (price : Q) (budget : Budget) : Q :=
  if budget.min ≥ budget.max ∨ budget.min < 0 ∨ budget.max < 0 ∨ price < 0 then 0
  else
    let range := budget.max - budget.min
    let tightness := max (1/2) (min 2 (1000 / range))
    let centering := 100 * (1 - |price - (budget.min + budget.max) / 2| / (range / 2))
    let base := max 0 (centering * tightness)
    if |price - budget.min| < range / 10 then min 100 (base + 15)
    else if |price - budget.max| < range / 10 then min 100 (base + 10)
    else base

/-- Claim C4 (counterexample): the claim says the budget-fit result is
clamped to [0,100] and never exceeds 100, but for price 350 against
budget [100,600] (a valid-bounds input hitting neither bonus branch)
`_calculate_budget_fit` returns 200: the range 500 gives tightness
factor 2.0 and the centred price gives a centering score of 100, and no
final clamp is applied. -/
theorem calculate_budget_fit_exceeds_100 :
    calculate_budget_fit 350 ⟨100, 600, "USD"⟩ = 200 ∧
    ¬ calculate_budget_fit 350 ⟨100, 600, "USD"⟩ ≤ 100 := by
  constructor <;> decide

/-- Claim C4 (amended): for every price and budget, the normal-mode
budget-fit sub-score equals the centering-times-tightness formula with
the +15/+10 bonuses, clamped below at 0, with the bonus branches (and
only those) clamped at 100, and 0 for invalid bounds; the bonus-free
value can exceed 100 (up to 200). -/
theorem calculate_budget_fit_eq_spec (price : Q) (budget : Budget) :
    calculate_budget_fit price budget = budget_fit_spec price budget := by
  unfold calculate_budget_fit budget_fit_spec
  dsimp only
  by_cases hp : price < 0
  · have hcomb : budget.min ≥ budget.max ∨ budget.min < 0 ∨ budget.max < 0 ∨ price < 0 := by
      tauto
    rw [if_pos hp, if_pos hcomb]
  · by_cases hb : budget.min ≥ budget.max ∨ budget.min < 0 ∨ budget.max < 0
    · have hcomb : budget.min ≥ budget.max ∨ budget.min < 0 ∨ budget.max < 0 ∨ price < 0 := by
        tauto
      rw [if_neg hp, if_pos hb, if_pos hcomb]
    · have hcomb : ¬ (budget.min ≥ budget.max ∨ budget.min < 0 ∨ budget.max < 0 ∨ price < 0) := by
        tauto
      rw [if_neg hp, if_neg hb, if_neg hcomb]
      push_neg at hb
      have hlt : budget.min < budget.max := hb.1
      have hr : ¬ (budget.max - budget.min ≤ 0) := by linarith
      have hd : ¬ ((budget.max - budget.min) / 2 ≤ 0) := by intro h; linarith
      rw [if_neg hr, if_neg hd,
        show (budget.max - budget.min) * (1/10) = (budget.max - budget.min) / 10 from by ring]

/-- Claim C7: in safe mode every sub-score respects its documented
floor for every input — the safe purpose score is ≥ 60, the safe
budget-fit score is ≥ 60 and the safe performance score is ≥ 65 — and
the constants returned on the error-fallback path of each sub-score
function (70, 75, 70) respect the same floors. -/
theorem safe_mode_sub_score_floors (purpose required_level : String)
    (suitability_scores performance_profile : List (String × Q))
    (price : Q) (budget : Budget) :
    60 ≤ calculate_purpose_score_safe purpose suitability_scores ∧
    60 ≤ calculate_budget_fit_safe price budget ∧
    65 ≤ calculate_performance_score_safe required_level performance_profile ∧
    60 ≤ purpose_score_safe_on_error ∧
    60 ≤ budget_fit_safe_on_error ∧
    65 ≤ performance_score_safe_on_error := by
  refine ⟨?_, ?_, ?_, by norm_num [purpose_score_safe_on_error],
    by norm_num [budget_fit_safe_on_error],
    by norm_num [performance_score_safe_on_error]⟩
  · unfold calculate_purpose_score_safe
    exact le_max_left _ _
  · unfold calculate_budget_fit_safe
    dsimp only
    split_ifs <;> norm_num
  · unfold calculate_performance_score_safe
    dsimp only
    split_ifs <;> norm_num

/-- Claim C8 (counterexample): the claim says a profile with an invalid
budget yields the base weights 0.4/0.3/0.2/0.1, but a budget with
`min = 500 > 100 = max` (representable, since the `min ≤ max` validator
in `user_profile.py` is commented out) is processed as a tight budget
and — for purpose `gaming` — yields the purpose-table weights
0.45/0.2/0.3/0.05, not the base weights. -/
theorem dynamic_weights_invalid_budget_not_base :
    (⟨500, 100, "USD"⟩ : Budget).max < (⟨500, 100, "USD"⟩ : Budget).min ∧
    calculate_dynamic_weights "gaming" "standard" (some ⟨500, 100, "USD"⟩) =
      ⟨45/100, 2/10, 3/10, 5/100⟩ ∧
    calculate_dynamic_weights "gaming" "standard" (some ⟨500, 100, "USD"⟩) ≠
      base_weights := by
  refine ⟨by decide, by decide, by decide⟩

/-- Claim C8 (amended): the dynamic weight calculator always returns
four weights summing exactly to 1, and a missing (falsy) budget — as
well as any internal error — yields the base weights
0.4/0.3/0.2/0.1; an invalid budget with `min > max`, however, is
processed as a tight budget rather than falling back to the base
weights. -/
theorem dynamic_weights_sum_one_and_missing_budget_base :
    (∀ (purpose performance_level : String) (budget : Option Budget),
      (calculate_dynamic_weights purpose performance_level budget).sum = 1) ∧
    (∀ purpose performance_level : String,
      calculate_dynamic_weights purpose performance_level none = base_weights) := by
  constructor
  · intro purpose performance_level budget
    rcases budget with _ | b
    · norm_num [calculate_dynamic_weights, base_weights, Weights.sum]
    · unfold calculate_dynamic_weights
      dsimp only
      set w := (purpose_weight_table purpose).getD _ with hw
      by_cases h : 0 < w.sum
      · rw [if_pos h]
        have hne : w.sum ≠ 0 := ne_of_gt h
        unfold Weights.sum at hne ⊢
        dsimp only
        field_simp
      · rw [if_neg h]
        norm_num [base_weights, Weights.sum]
  · intro purpose performance_level
    rfl

/-- Two permuted string lists have the same Python `sorted` image. -/
theorem py_sorted_perm {l₁ l₂ : List String} (h : l₁.Perm l₂) :
    py_sorted l₁ = py_sorted l₂ := by
  unfold py_sorted
  refine List.eq_of_perm_of_sorted
    (r := fun a b : String => a ≤ b) ?_ ?_ ?_
  · exact ((List.perm_insertionSort _ l₁).trans h).trans
      (List.perm_insertionSort _ l₂).symm
  · exact List.sorted_insertionSort (fun a b : String => a ≤ b) l₁
  · exact List.sorted_insertionSort (fun a b : String => a ≤ b) l₂

/-- Claim C9: the cache key is a deterministic function of the
normalized profile only: two requests that agree on purpose, budget
bounds, performance level, the brand list up to order, the feature list
up to order, and use the same `max_recommendations` and `safe_mode`,
produce the same normalized profile — and hence the same
`md5(json.dumps(...))` cache key — whatever their `session_id`,
`user_id`, document id or budget currency are. -/
theorem cache_key_noninterference (p₁ p₂ : UserProfile) (m : Nat) (sm : Bool)
    (hpur : p₁.purpose = p₂.purpose)
    (hmin : p₁.budget.min = p₂.budget.min)
    (hmax : p₁.budget.max = p₂.budget.max)
    (hlvl : p₁.performance_level = p₂.performance_level)
    (hbr : p₁.preferred_brands.Perm p₂.preferred_brands)
    (hft : p₁.must_have_features.Perm p₂.must_have_features) :
    normalize_profile p₁ m sm = normalize_profile p₂ m sm := by
  unfold normalize_profile
  rw [hpur, hmin, hmax, hlvl, py_sorted_perm hbr, py_sorted_perm hft]

/-- Claim C9 witness: two concrete requests differing in session id,
user id and list order (brands `["NVIDIA","AMD"]` vs
`["AMD","NVIDIA"]`, features `["wifi","rgb"]` vs `["rgb","wifi"]`)
get the same cache key. -/
theorem cache_key_noninterference_witness :
    normalize_profile
      { purpose := "gaming", budget := ⟨800, 1500, "USD"⟩,
        performance_level := "high", preferred_brands := ["NVIDIA", "AMD"],
        must_have_features := ["wifi", "rgb"], session_id := "session-a",
        user_id := some "alice", id := "p1" } 3 false =
    normalize_profile
      { purpose := "gaming", budget := ⟨800, 1500, "EUR"⟩,
        performance_level := "high", preferred_brands := ["AMD", "NVIDIA"],
        must_have_features := ["rgb", "wifi"], session_id := "session-b",
        user_id := none, id := "p2" } 3 false :=
  cache_key_noninterference _ _ 3 false rfl rfl rfl rfl (by decide) (by decide)

/-- Any `some` result of `_score_configuration` has survived the
original-budget check, so its price lies within the stated
budget bounds. -/
theorem score_configuration_some_bounds
    {components_db : List ComponentDoc} {p : UserProfile} {sm : Bool}
    {config : Config} {r : ScoredCandidate}
    (h : score_configuration components_db p sm config = some r) :
    p.budget.min ≤ r.total_price ∧ r.total_price ≤ p.budget.max := by
  unfold score_configuration at h
  dsimp only at h
  split at h
  · exact absurd h (by simp)
  · split at h
    · exact absurd h (by simp)
    · rename_i hc
      rw [not_not] at hc
      injection h with h
      subst h
      exact hc

/-- Every candidate in the ranked list of `generate_recommendations`
comes from the scored pool (the successfully scored retrieved
configurations). -/
theorem mem_result_list_mem_scored_pool
    {db : List Config} {components_db : List ComponentDoc} {p : UserProfile}
    {m : Nat} {sm : Bool} {r : ScoredCandidate}
    (h : r ∈ result_list (generate_recommendations db components_db p m sm)) :
    r ∈ scored_pool db components_db p m sm := by
  unfold generate_recommendations at h
  unfold scored_pool
  dsimp only at h
  split at h
  · simp [result_list] at h
  · split at h
    · split at h
      · simp only [result_list] at h
        exact (List.perm_insertionSort _ _).subset (List.take_subset _ _ h)
      · simp [result_list] at h
    · simp only [result_list] at h
      exact (List.perm_insertionSort _ _).subset (List.take_subset _ _ h)

/-- Claim C2: every candidate returned by `generate_recommendations`
that is not marked with a fallback type has its total price within the
stated budget bounds of the profile. -/
theorem returned_nonfallback_within_budget
    (db : List Config) (components_db : List ComponentDoc) (p : UserProfile)
    (m : Nat) (sm : Bool) (r : ScoredCandidate)
    (hmem : r ∈ result_list (generate_recommendations db components_db p m sm))
    (hnf : r.fallback_type = none) :
    p.budget.min ≤ r.total_price ∧ r.total_price ≤ p.budget.max := by
  obtain ⟨c, -, hc⟩ := List.mem_filterMap.mp (mem_result_list_mem_scored_pool hmem)
  exact score_configuration_some_bounds hc

/-- Claim C10: every candidate returned by `generate_recommendations`
— fallback-tagged or not — has its total price within the original
budget bounds of the caller, because `_score_configuration` applies
`_check_budget_constraints` with the original budget to every
configuration and drops any that fail it. -/
theorem returned_candidates_within_original_budget
    (db : List Config) (components_db : List ComponentDoc) (p : UserProfile)
    (m : Nat) (sm : Bool) (r : ScoredCandidate)
    (hmem : r ∈ result_list (generate_recommendations db components_db p m sm)) :
    p.budget.min ≤ r.total_price ∧ r.total_price ≤ p.budget.max := by
  obtain ⟨c, -, hc⟩ := List.mem_filterMap.mp (mem_result_list_mem_scored_pool hmem)
  exact score_configuration_some_bounds hc

/-- A gaming profile with budget [500,1500]. -/
def gaming_profile : UserProfile :=
  { purpose := "gaming", budget := ⟨500, 1500, "USD"⟩, performance_level := "high" }

/-- A well-suited 900-priced gaming configuration. -/
def gaming_config : Config :=
  { id := "cw1", name := "Gaming Rig", total_price := 900,
    suitability_scores := some [("gaming", 90)],
    performance_profile := some [("overall_performance", 85), ("cpu_performance", 85),
      ("gpu_performance", 85), ("ram_performance", 85), ("storage_performance", 85)] }

/-- The first candidate returned for `gaming_profile` against a catalog
holding only `gaming_config`. -/
def gaming_first_returned : ScoredCandidate :=
  (result_list (generate_recommendations [gaming_config] [] gaming_profile 3 false)).headI

/-- Claim C2 witness: a concrete run returns a candidate with no
fallback tag whose price lies within the stated budget. -/
theorem returned_nonfallback_within_budget_witness :
    gaming_profile.budget.min ≤ gaming_first_returned.total_price ∧
    gaming_first_returned.total_price ≤ gaming_profile.budget.max :=
  returned_nonfallback_within_budget [gaming_config] [] gaming_profile 3 false
    gaming_first_returned (by decide) (by decide)

/-- A profile with preferred brands whose thresholds no catalog entry
meets, used for the fallback analyses. -/
def brand_profile : UserProfile :=
  { purpose := "general", budget := ⟨300, 600, "USD"⟩,
    performance_level := "standard", preferred_brands := ["NVIDIA"] }

/-- An in-budget configuration whose suitability (10) and overall
performance (10) are below even the broadened thresholds, so only the
remove-all-constraints stage can find it. -/
def low_score_config : Config :=
  { id := "clow", name := "Low Score Box", total_price := 400,
    suitability_scores := some [("general", 10)],
    performance_profile := some [("overall_performance", 10)] }

/-- The first candidate returned for `brand_profile` against a catalog
holding only `low_score_config` (found by the remove-all-constraints
stage). -/
def fallback_first_returned : ScoredCandidate :=
  (result_list (generate_recommendations [low_score_config] [] brand_profile 3 false)).headI

/-- Claim C10 witness: a concrete run whose returned candidate is
fallback-tagged still lies within the original budget bounds. -/
theorem returned_candidates_within_original_budget_witness :
    fallback_first_returned.fallback_type ≠ none ∧
    (brand_profile.budget.min ≤ fallback_first_returned.total_price ∧
      fallback_first_returned.total_price ≤ brand_profile.budget.max) :=
  ⟨by decide,
    returned_candidates_within_original_budget [low_score_config] [] brand_profile 3 false
      fallback_first_returned (by decide)⟩

/-- A profile with the narrow budget [200,350] of spec scenario 2. -/
def narrow_budget_profile : UserProfile :=
  { purpose := "general", budget := ⟨200, 350, "USD"⟩, performance_level := "standard" }

/-- A 360-priced configuration: outside the original budget [200,350]
but inside the 15%-expanded range [178,372]. -/
def config_priced_360 : Config :=
  { id := "c360", name := "Slightly Over", total_price := 360,
    suitability_scores := some [("general", 90)],
    performance_profile := some [("overall_performance", 90)] }

/-- Claim C1 (counterexample): the claim says that whenever some
fallback stage returns a non-empty candidate set the call returns a
non-empty ranked list rather than failing; but for
`narrow_budget_profile` against a catalog holding only
`config_priced_360` the expanded-budget stage returns a non-empty set
(the 360-priced configuration) and the call still fails — every
retrieved candidate is dropped by the original-budget check of
`_score_configuration`, hitting the second `raise ValueError`. -/
theorem nonempty_fallback_stage_can_still_fail :
    try_fallback_query [config_priced_360] narrow_budget_profile 3 none false true false ≠ [] ∧
    generate_recommendations [config_priced_360] [] narrow_budget_profile 3 false =
      .error .noValidAfterScoring := by
  constructor <;> decide

/-- Claim C1 (amended): `generate_recommendations` fails exactly when
the scored pool is empty — either because retrieval and every fallback
stage yielded nothing, or because candidates were retrieved but every
one was dropped during scoring; whenever at least one retrieved
candidate survives scoring and `max_recommendations ≥ 1`, the call
returns a non-empty ranked list. -/
theorem generate_recommendations_failure_characterization
    (db : List Config) (components_db : List ComponentDoc) (p : UserProfile)
    (m : Nat) (sm : Bool) (hm : 1 ≤ m) :
    ((∃ e, generate_recommendations db components_db p m sm = .error e) ↔
      scored_pool db components_db p m sm = []) ∧
    (∀ l hit, generate_recommendations db components_db p m sm = .ok (l, hit) →
      l ≠ []) := by
  unfold generate_recommendations scored_pool
  dsimp only
  by_cases hcfg : retrieve_with_fallback db p m sm = []
  · rw [if_pos hcfg, hcfg]
    simp
  · rw [if_neg hcfg]
    by_cases hpool : (retrieve_with_fallback db p m sm).filterMap
        (score_configuration components_db p sm) = []
    · have hsort : ((retrieve_with_fallback db p m sm).filterMap
          (score_configuration components_db p sm)).insertionSort
            (fun a b => scored_le a b = true) = [] := by
        rw [hpool]
        rfl
      rw [hsort, hpool]
      simp
    · have hsortne : ((retrieve_with_fallback db p m sm).filterMap
          (score_configuration components_db p sm)).insertionSort
            (fun a b => scored_le a b = true) ≠ [] := by
        intro hh
        have hperm := List.perm_insertionSort (fun a b => scored_le a b = true)
          ((retrieve_with_fallback db p m sm).filterMap
            (score_configuration components_db p sm))
        rw [hh] at hperm
        exact hpool hperm.symm.eq_nil
      have htake : (((retrieve_with_fallback db p m sm).filterMap
          (score_configuration components_db p sm)).insertionSort
            (fun a b => scored_le a b = true)).take m ≠ [] := by
        obtain ⟨a, rest, hrw⟩ := List.exists_cons_of_ne_nil hsortne
        rw [hrw]
        cases m with
        | zero => omega
        | succ n => simp
      rw [if_neg htake]
      refine ⟨⟨fun ⟨e, he⟩ => absurd he (by simp), fun hp => absurd hp hpool⟩, ?_⟩
      intro l hit hok
      injection hok with h
      injection h with h1 h2
      rw [← h1]
      exact htake

/-- Claim C1 (amended) witness: at the concrete gaming input the failure
characterization specializes — the run does not fail and its ranked
list is non-empty. -/
theorem generate_recommendations_failure_characterization_witness :
    (1 : Nat) ≤ 3 ∧
    (((∃ e, generate_recommendations [gaming_config] [] gaming_profile 3 false = .error e) ↔
        scored_pool [gaming_config] [] gaming_profile 3 false = []) ∧
      (∀ l hit, generate_recommendations [gaming_config] [] gaming_profile 3 false =
          .ok (l, hit) → l ≠ [])) :=
  ⟨by decide,
    generate_recommendations_failure_characterization [gaming_config] [] gaming_profile
      3 false (by decide)⟩

/-- A 450-priced configuration: nothing in this catalog is priced under
400 (the hypothesis of scenario 2 against budget [200,350]). -/
def config_priced_450 : Config :=
  { id := "c450", name := "Well Over", total_price := 450,
    suitability_scores := some [("general", 90)],
    performance_profile := some [("overall_performance", 90)] }

/-- Claim C3 (code bug, failing evaluation): for budget [200,350] and a
catalog with no candidate under 400, the spec scenario promises a
non-empty result tagged `expanded_budget` priced inside the 15%-expanded
range; the code instead exhausts every stage (the 15% expansion reaches
only 372, and the remove-all-constraints stage keeps the original
budget filter) and fails — and by
`returned_candidates_within_original_budget`-style reasoning a price
outside the original budget could never be returned anyway, because
`_score_configuration` re-applies the original budget check to
fallback-tagged configurations. -/
theorem expanded_budget_scenario_fails :
    (∀ c ∈ [config_priced_450], (400 : Q) ≤ c.total_price) ∧
    generate_recommendations [config_priced_450] [] narrow_budget_profile 3 false =
      .error .noConfigurationsAvailable := by
  constructor <;> decide

/-- Claim C5 (code bug, failing evaluation): for `brand_profile`
(preferred brands `["NVIDIA"]`) against a catalog holding only
`low_score_config`, every stage up to and including `expandBudget`
returns an empty set and the remove-all-constraints stage succeeds —
yet its results (and the returned candidates) are tagged
`"preferred_brands"`, not `"no_constraints"`: the first branch of
the tag expression tests only whether the `preferred_brands` parameter is
`None` (it is, for every stage call) and the profile lists brands. -/
theorem fallback_tag_mislabels_stage :
    stage_result [low_score_config] brand_profile 3 .relaxPreferredBrands = [] ∧
    stage_result [low_score_config] brand_profile 3 .relaxPerformance = [] ∧
    stage_result [low_score_config] brand_profile 3 .expandBudget = [] ∧
    stage_result [low_score_config] brand_profile 3 .removeAllConstraints ≠ [] ∧
    (∀ c ∈ stage_result [low_score_config] brand_profile 3 .removeAllConstraints,
      c.fallback_type = some "preferred_brands") ∧
    result_list (generate_recommendations [low_score_config] [] brand_profile 3 false) ≠ [] ∧
    (∀ r ∈ result_list (generate_recommendations [low_score_config] [] brand_profile 3 false),
      r.fallback_type = some "preferred_brands" ∧
        r.fallback_type ≠ some "no_constraints") := by
  refine ⟨by decide, by decide, by decide, by decide, by decide, by decide, by decide⟩

/-- Claim C6: the fallback stages are attempted strictly in the order
RelaxPreferredBrands, RelaxPerformance, ExpandBudget,
RemoveAllConstraints (the attempted trace is an ordered sublist of
that canonical order); a stage is attempted only when the
primary-plus-broadened retrieval was empty; and for every attempted
stage, the query of every earlier attempted stage returned an empty set —
so no stage is ever attempted after a prior stage produced a non-empty
set. -/
theorem fallback_stages_attempted_in_order
    (db : List Config) (p : UserProfile) (m : Nat) (sm : Bool) :
    (fallback_trace db p m sm).Sublist
      [.relaxPreferredBrands, .relaxPerformance, .expandBudget, .removeAllConstraints] ∧
    (fallback_trace db p m sm ≠ [] → retrieve db p m sm = []) ∧
    (∀ s ∈ fallback_trace db p m sm, ∀ s2 ∈ fallback_trace db p m sm,
      s2.idx < s.idx → stage_result db p m s2 = []) := by
  unfold fallback_trace
  dsimp only
  split
  · refine ⟨List.nil_sublist _, fun hc => absurd rfl hc, ?_⟩
    intro s hs
    simp at hs
  · rename_i hretne
    have hret : retrieve db p m sm = [] := not_not.mp hretne
    by_cases hbr : p.preferred_brands ≠ []
    · simp only [if_pos hbr]
      by_cases h1 : stage_result db p m .relaxPreferredBrands ≠ []
      · simp only [if_pos h1]
        refine ⟨by decide, fun _ => hret, ?_⟩
        intro s hs s2 hs2 hlt
        fin_cases hs <;> fin_cases hs2 <;> simp_all [FallbackStage.idx]
      · simp only [if_neg h1]
        have h1e : stage_result db p m .relaxPreferredBrands = [] := not_not.mp h1
        by_cases h2 : stage_result db p m .relaxPerformance ≠ []
        · simp only [if_pos h2]
          refine ⟨by decide, fun _ => hret, ?_⟩
          intro s hs s2 hs2 hlt
          fin_cases hs <;> fin_cases hs2 <;> simp_all [FallbackStage.idx]
        · simp only [if_neg h2]
          have h2e : stage_result db p m .relaxPerformance = [] := not_not.mp h2
          by_cases h3 : stage_result db p m .expandBudget ≠ []
          · simp only [if_pos h3]
            refine ⟨by decide, fun _ => hret, ?_⟩
            intro s hs s2 hs2 hlt
            fin_cases hs <;> fin_cases hs2 <;> simp_all [FallbackStage.idx]
          · simp only [if_neg h3]
            have h3e : stage_result db p m .expandBudget = [] := not_not.mp h3
            refine ⟨by decide, fun _ => hret, ?_⟩
            intro s hs s2 hs2 hlt
            fin_cases hs <;> fin_cases hs2 <;> simp_all [FallbackStage.idx]
    · simp only [if_neg hbr]
      have hniln : ¬ (([] : List Config) ≠ []) := fun hc => absurd rfl hc
      simp only [if_neg hniln, List.nil_append]
      by_cases h2 : stage_result db p m .relaxPerformance ≠ []
      · simp only [if_pos h2]
        refine ⟨by decide, fun _ => hret, ?_⟩
        intro s hs s2 hs2 hlt
        fin_cases hs <;> fin_cases hs2 <;> simp_all [FallbackStage.idx]
      · simp only [if_neg h2]
        have h2e : stage_result db p m .relaxPerformance = [] := not_not.mp h2
        by_cases h3 : stage_result db p m .expandBudget ≠ []
        · simp only [if_pos h3]
          refine ⟨by decide, fun _ => hret, ?_⟩
          intro s hs s2 hs2 hlt
          fin_cases hs <;> fin_cases hs2 <;> simp_all [FallbackStage.idx]
        · simp only [if_neg h3]
          have h3e : stage_result db p m .expandBudget = [] := not_not.mp h3
          refine ⟨by decide, fun _ => hret, ?_⟩
          intro s hs s2 hs2 hlt
          fin_cases hs <;> fin_cases hs2 <;> simp_all [FallbackStage.idx]

/-- A brand-free profile identical to `brand_profile` otherwise, for
exercising the fallback trace. -/
def no_brand_profile : UserProfile :=
  { purpose := "general", budget := ⟨300, 600, "USD"⟩,
    performance_level := "standard" }

/-- Claim C6 witness: at the concrete `no_brand_profile` input the
trace is `[relaxPerformance, expandBudget, removeAllConstraints]`, and
the theorem yields that the expand-budget stage (attempted before the
succeeding remove-all-constraints stage) had returned an empty set. -/
theorem fallback_stages_attempted_in_order_witness :
    stage_result [low_score_config] no_brand_profile 3 .expandBudget = [] :=
  (fallback_stages_attempted_in_order [low_score_config] no_brand_profile 3 false).2.2
    .removeAllConstraints (by decide) .expandBudget (by decide) (by decide)

end RecEngine
